import Mathlib

/-!
# Verification of the Authentication Profile Failover Core

A shallow embedding, in Lean 4, of the auth-profile failover subsystem:
the eligibility oracle (`resolveProfileUnusableUntil`, `isProfileInCooldown`),
the usage-stats updaters (`markAuthProfileUsed`, `computeNextProfileUsageStats`,
`clearAuthProfileCooldown`), the cooldown calculators, the Retry-After
extractor (`extractRetryAfterMs`), and the infinite-retry driver
(`calculateMinimumWaitMs`, `withInfiniteRetry`).

JavaScript numbers are modelled by `JsNum`: a finite rational, `NaN`,
`+Infinity`, or `-Infinity`.  Counter fields (`errorCount`,
`failureCounts[...]`) are integer-valued in the program (they only ever hold
0 or a previous counter plus one), so they are embedded as `Int`.  The clock
(`Date.now()`) always yields a finite number and is passed explicitly as a
rational `now` parameter.  String-keyed records are embedded as functions
`String → Option α`; JavaScript truthiness of optional strings and of
numbers is modelled explicitly (`strTruthy`, `JsNum.truthy`).
-/

/-- A JavaScript number: finite (modelled as a rational), `NaN`, or ±∞. -/
inductive JsNum where
  | fin (v : ℚ)
  | nan
  | inf
  | ninf
deriving DecidableEq, Repr

/-- The IEEE-754 binary64 overflow threshold: a real magnitude at or above
`2^1024 − 2^970` rounds to infinity under round-to-nearest-even. -/
def doubleOverflowThreshold : ℚ := 2 ^ 1024 - 2 ^ 970

namespace JsNum

/-- JavaScript truthiness of a number: `0` and `NaN` are falsy. -/
def truthy : JsNum → Bool
  | fin v => v ≠ 0
  | nan => false
  | inf => true
  | ninf => true

/-- `Number.isFinite`. -/
def isFinite : JsNum → Bool
  | fin _ => true
  | _ => false

/-- The JavaScript `<` comparison; any comparison with `NaN` is false. -/
def ltb : JsNum → JsNum → Bool
  | nan, _ => false
  | _, nan => false
  | fin a, fin b => a < b
  | fin _, inf => true
  | fin _, ninf => false
  | inf, _ => false
  | ninf, ninf => false
  | ninf, _ => true

/-- The JavaScript `>` comparison. -/
def gtb (a b : JsNum) : Bool := ltb b a

/-- `Math.max` on two arguments: `NaN` is absorbing. -/
def max2 (a b : JsNum) : JsNum :=
  match a, b with
  | nan, _ => nan
  | _, nan => nan
  | _, _ => if ltb a b then b else a

/-- JavaScript subtraction. -/
def sub : JsNum → JsNum → JsNum
  | nan, _ => nan
  | _, nan => nan
  | fin a, fin b => fin (a - b)
  | inf, fin _ => inf
  | ninf, fin _ => ninf
  | fin _, inf => ninf
  | fin _, ninf => inf
  | inf, inf => nan
  | ninf, ninf => nan
  | inf, ninf => inf
  | ninf, inf => ninf

/-- JavaScript multiplication by the literal `1000`: double multiplication,
overflowing to ±infinity at the binary64 threshold.  (Rounding of in-range
products to the nearest double is not modelled; it cannot change the sign,
finiteness, or integrality facts stated below.) -/
def mul1000 : JsNum → JsNum
  | fin v =>
    if doubleOverflowThreshold ≤ v * 1000 then inf
    else if v * 1000 ≤ -doubleOverflowThreshold then ninf
    else fin (v * 1000)
  | nan => nan
  | inf => inf
  | ninf => ninf

/-- `Math.ceil`. -/
def jsCeil : JsNum → JsNum
  | fin v => fin ((⌈v⌉ : ℤ) : ℚ)
  | nan => nan
  | inf => inf
  | ninf => ninf

end JsNum

/-- Truthiness of an optional string (`undefined` and `""` are falsy). -/
def strTruthy : Option String → Bool
  | some s => s ≠ ""
  | none => false

/-- A string-keyed JavaScript record with values of type `α`. -/
def StrMap (α : Type) : Type := String → Option α

/-- `m[k] = v` on a string-keyed record. -/
def StrMap.insert {α : Type} (m : StrMap α) (k : String) (v : α) : StrMap α :=
  fun q => if q = k then some v else m q

/-- The empty record `{}`. -/
def StrMap.empty {α : Type} : StrMap α := fun _ => none

/-- The six failure reasons (`AuthProfileFailureReason` in `types.ts`). -/
inductive AuthProfileFailureReason where
  | auth
  | format
  | rate_limit
  | billing
  | timeout
  | unknown
deriving DecidableEq, Repr

/-- Per-model usage statistics (`ModelUsageStats` in `types.ts`). -/
structure ModelUsageStats where
  lastUsed : Option JsNum := none
  cooldownUntil : Option JsNum := none
  errorCount : Option ℤ := none
  lastFailureAt : Option JsNum := none
deriving DecidableEq, Repr

/-- A `Partial<Record<AuthProfileFailureReason, number>>` of integer counters. -/
def FailureCounts : Type := AuthProfileFailureReason → Option ℤ

/-- The empty failure-count record. -/
def FailureCounts.empty : FailureCounts := fun _ => none

/-- `fc[reason] = v`. -/
def FailureCounts.insert (fc : FailureCounts) (r : AuthProfileFailureReason) (v : ℤ) :
    FailureCounts :=
  fun q => if q = r then some v else fc q

/-- Per-profile usage statistics (`ProfileUsageStats` in `types.ts`). -/
structure ProfileUsageStats where
  lastUsed : Option JsNum := none
  cooldownUntil : Option JsNum := none
  disabledUntil : Option JsNum := none
  disabledReason : Option AuthProfileFailureReason := none
  errorCount : Option ℤ := none
  failureCounts : Option FailureCounts := none
  lastFailureAt : Option JsNum := none
  modelStats : Option (StrMap ModelUsageStats) := none

/-- A credential; only the `provider` field is consulted by this core. -/
structure AuthProfileCredential where
  provider : String

/-- The persisted store (`AuthProfileStore` in `types.ts`); `order` and
`lastGood` play no role in the verified operations and are omitted. -/
structure AuthProfileStore where
  version : ℤ
  profiles : StrMap AuthProfileCredential
  usageStats : Option (StrMap ProfileUsageStats) := none

/-- `store.usageStats?.[profileId]`. -/
def storeStats (store : AuthProfileStore) (profileId : String) :
    Option ProfileUsageStats :=
  store.usageStats.bind (fun usage => usage profileId)

/-- `stats.modelStats?.[modelId]`. -/
def modelStatsOf (stats : ProfileUsageStats) (modelId : String) :
    Option ModelUsageStats :=
  stats.modelStats.bind (fun mm => mm modelId)

/-- `resolveProfileUnusableUntil` from the source: collect `cooldownUntil` and
`disabledUntil` filtered to finite strictly-positive numbers, push the
per-model `cooldownUntil` whenever `modelId` and that value are truthy, and
return `Math.max` of the collected values (or `null` when none). -/
def resolveProfileUnusableUntil (stats : ProfileUsageStats) (modelId : Option String) :
    Option JsNum :=
  let values :=
    ([stats.cooldownUntil, stats.disabledUntil].filterMap id).filter
      (fun v => v.isFinite && JsNum.gtb v (JsNum.fin 0))
  let values :=
    if strTruthy modelId then
      match modelId.bind (fun m => (modelStatsOf stats m).bind (·.cooldownUntil)) with
      | some c => if c.truthy then values ++ [c] else values
      | none => values
    else values
  match values with
  | [] => none
  | v :: vs => some (vs.foldl JsNum.max2 v)

/-- `isProfileInCooldown` from the source; `now` stands for the `Date.now()`
call made inside the function. -/
def isProfileInCooldown (store : AuthProfileStore) (profileId : String)
    (modelId : Option String) (now : ℚ) : Bool :=
  match storeStats store profileId with
  | none => false
  | some stats =>
    match resolveProfileUnusableUntil stats modelId with
    | some u => if u.truthy then JsNum.ltb (JsNum.fin now) u else false
    | none => false

/-- `resolveProfileUnusableUntilForDisplay` from the source. -/
def resolveProfileUnusableUntilForDisplay (store : AuthProfileStore)
    (profileId : String) (modelId : Option String) : Option JsNum :=
  match storeStats store profileId with
  | none => none
  | some stats => resolveProfileUnusableUntil stats modelId

/-- The fresh per-model record written by `markAuthProfileUsed` when a
`modelId` is given: `{ lastUsed: Date.now(), errorCount: 0, cooldownUntil:
undefined }` — note that it is built from scratch, not spread from the
existing entry. -/
def markUsedModelEntry (now : ℚ) : ModelUsageStats :=
  { lastUsed := some (JsNum.fin now), errorCount := some 0, cooldownUntil := none,
    lastFailureAt := none }

/-- The pure core of `markAuthProfileUsed` (the updater passed to the locked
store; the unlocked fallback path performs the same transformation).  Returns
`none` when the profile is missing (the updater returns `false`); `now`
stands for the `Date.now()` calls. -/
def markAuthProfileUsed (store : AuthProfileStore) (profileId : String)
    (modelId : Option String) (now : ℚ) : Option AuthProfileStore :=
  match store.profiles profileId with
  | none => none
  | some _ =>
    let usage := store.usageStats.getD StrMap.empty
    let existing := (usage profileId).getD {}
    let base : ProfileUsageStats :=
      { existing with
        lastUsed := some (JsNum.fin now)
        errorCount := some 0
        cooldownUntil := none
        disabledUntil := none
        disabledReason := none
        failureCounts := none }
    let newStats :=
      if strTruthy modelId then
        match modelId with
        | some m =>
          { base with
            modelStats :=
              some ((base.modelStats.getD StrMap.empty).insert m (markUsedModelEntry now)) }
        | none => base
      else base
    some { store with usageStats := some (usage.insert profileId newStats) }

/-- `calculateAuthProfileCooldownMs`: `min(1h, 60_000 × 5^min(max(1,n)−1, 3))`. -/
def calculateAuthProfileCooldownMs (errorCount : ℤ) : ℚ :=
  min (60 * 60 * 1000) (60 * 1000 * 5 ^ (min (max 1 errorCount - 1) 3).toNat)

/-- The resolved cooldown configuration (`ResolvedAuthCooldownConfig`). -/
structure ResolvedAuthCooldownConfig where
  billingBackoffMs : ℚ
  billingMaxMs : ℚ
  failureWindowMs : ℚ

/-- `calculateAuthProfileBillingDisableMsWithConfig`: clamp the base up to
one minute, clamp the max up to the base, and take
`min(maxMs, baseMs × 2^min(max(1,n)−1, 10))`. -/
def calculateAuthProfileBillingDisableMsWithConfig (errorCount : ℤ)
    (baseMs maxMs : ℚ) : ℚ :=
  let normalized := max 1 errorCount
  let base := max 60000 baseMs
  let mx := max base maxMs
  let exponent := (min (normalized - 1) 10).toNat
  min mx (base * 2 ^ exponent)

/-- The `windowExpired` test of `computeNextProfileUsageStats`:
`typeof lastFailureAt === "number" && lastFailureAt > 0 &&
now − lastFailureAt > failureWindowMs`. -/
def windowExpiredCheck (lastFailureAt : Option JsNum) (now windowMs : ℚ) : Bool :=
  match lastFailureAt with
  | some n =>
    JsNum.gtb n (JsNum.fin 0) &&
      JsNum.gtb (JsNum.sub (JsNum.fin now) n) (JsNum.fin windowMs)
  | none => false

/-- `computeNextProfileUsageStats` from the source, branch for branch. -/
def computeNextProfileUsageStats (existing : ProfileUsageStats) (now : ℚ)
    (reason : AuthProfileFailureReason) (cfgResolved : ResolvedAuthCooldownConfig)
    (modelId : Option String) (retryAfterMs : Option ℚ) : ProfileUsageStats :=
  let windowExpired := windowExpiredCheck existing.lastFailureAt now cfgResolved.failureWindowMs
  if reason = AuthProfileFailureReason.billing then
    let failureCounts :=
      if windowExpired then FailureCounts.empty else existing.failureCounts.getD FailureCounts.empty
    let failureCounts := failureCounts.insert reason ((failureCounts reason).getD 0 + 1)
    let billingCount := (failureCounts AuthProfileFailureReason.billing).getD 1
    let backoffMs := calculateAuthProfileBillingDisableMsWithConfig billingCount
      cfgResolved.billingBackoffMs cfgResolved.billingMaxMs
    { existing with
      disabledUntil := some (JsNum.fin (now + backoffMs))
      disabledReason := some AuthProfileFailureReason.billing
      failureCounts := some failureCounts
      lastFailureAt := some (JsNum.fin now) }
  else
    let isModelSpecific := strTruthy modelId &&
      (reason = AuthProfileFailureReason.rate_limit || reason = AuthProfileFailureReason.timeout)
    match modelId, isModelSpecific with
    | some m, true =>
      let mm := existing.modelStats.getD StrMap.empty
      let modelStats := (mm m).getD {}
      let modelErrorCount := modelStats.errorCount.getD 0 + 1
      let backoffMs := retryAfterMs.getD (calculateAuthProfileCooldownMs modelErrorCount)
      { existing with
        modelStats := some (mm.insert m
          { modelStats with
            errorCount := some modelErrorCount
            cooldownUntil := some (JsNum.fin (now + backoffMs))
            lastFailureAt := some (JsNum.fin now) }) }
    | _, _ =>
      let baseErrorCount := if windowExpired then 0 else existing.errorCount.getD 0
      let nextErrorCount := baseErrorCount + 1
      let backoffMs := retryAfterMs.getD (calculateAuthProfileCooldownMs nextErrorCount)
      { existing with
        errorCount := some nextErrorCount
        cooldownUntil := some (JsNum.fin (now + backoffMs))
        lastFailureAt := some (JsNum.fin now) }

/-- The pure core of `clearAuthProfileCooldown` (the updater passed to the
locked store; the fallback path performs the same transformation).  Returns
`none` when the profile has no usage stats (the updater returns `false`). -/
def clearAuthProfileCooldown (store : AuthProfileStore) (profileId : String)
    (modelId : Option String) : Option AuthProfileStore :=
  match store.usageStats with
  | none => none
  | some usage =>
    match usage profileId with
    | none => none
    | some stats =>
      let newStats :=
        if strTruthy modelId then
          match modelId with
          | some m =>
            match stats.modelStats with
            | some mm =>
              match mm m with
              | some entry =>
                { stats with
                  modelStats := some (mm.insert m
                    { entry with errorCount := some 0, cooldownUntil := none }) }
              | none => stats
            | none => stats
          | none => stats
        else
          { stats with errorCount := some 0, cooldownUntil := none }
      some { store with usageStats := some (usage.insert profileId newStats) }

/-- A `Retry-After` header value: a plain string or an array of strings. -/
inductive HeaderValue where
  | str (s : String)
  | arr (l : List String)
deriving DecidableEq, Repr

/-- The shape of error objects inspected by `extractRetryAfterMs`: an optional
`headers` record (insertion-ordered key/value list), and optional direct
numeric `retryAfter` / `retry_after` properties (a non-number property is the
same as an absent one, since the source guards with `typeof === "number"`). -/
structure RetryErrorObj where
  headers : Option (List (String × HeaderValue)) := none
  retryAfter : Option JsNum := none
  retry_after : Option JsNum := none

/-- The regular expression `^\d+(\.\d+)?$` used on header values. -/
def isNumericStr (s : String) : Bool :=
  let cs := s.toList
  let intPart := cs.takeWhile Char.isDigit
  match cs.dropWhile Char.isDigit with
  | [] => !intPart.isEmpty
  | c :: frac => c = Char.ofNat 46 && !intPart.isEmpty && !frac.isEmpty && frac.all Char.isDigit

/-- The numeric value of a digit string. -/
def digitsVal (l : List Char) : ℕ :=
  l.foldl (fun acc c => acc * 10 + (c.toNat - 48)) 0

/-- The exact rational value of a string matching `^\d+(\.\d+)?$`. -/
def parseNumericStr (s : String) : ℚ :=
  let cs := s.toList
  let intPart := cs.takeWhile Char.isDigit
  match cs.dropWhile Char.isDigit with
  | _ :: frac => (digitsVal intPart : ℚ) + (digitsVal frac : ℚ) / (10 : ℚ) ^ frac.length
  | [] => (digitsVal intPart : ℚ)

/-- `parseFloat` on a string matching `^\d+(\.\d+)?$`: the exact rational
value, overflowing to `Infinity` at the binary64 threshold — e.g. a numeric
header of 310 digits parses to `Infinity` in the runtime.  (Rounding of
in-range values to the nearest double is not modelled; it cannot change
whether the final result is a non-negative integer.) -/
def jsParseFloatNumeric (s : String) : JsNum :=
  if doubleOverflowThreshold ≤ parseNumericStr s then JsNum.inf
  else JsNum.fin (parseNumericStr s)

/-- The per-value tail of the `headers` block: empty strings fall through,
a numeric string is seconds (`Math.ceil(parseFloat(s) * 1000)`, including
the double overflow to `Infinity`), anything else goes through `Date.parse`
(modelled by the abstract `dateParse`, which returns `none` for `NaN`)
yielding `max(0, parsed − now)`. -/
def retryAfterFromHeaderStr (dateParse : String → Option ℤ) (now : ℚ)
    (s : String) : Option JsNum :=
  if s = "" then none
  else if isNumericStr s then
    some (JsNum.jsCeil (JsNum.mul1000 (jsParseFloatNumeric s)))
  else
    match dateParse s with
    | some d =>
      let delta : ℚ := (d : ℚ) - now
      some (JsNum.fin (if 0 < delta then delta else 0))
    | none => none

/-- The `headers` block of `extractRetryAfterMs`: case-insensitive lookup of
`retry-after`, first element of an array value, then the per-value tail.
Returns `none` when this block falls through to the direct properties. -/
def headerRetryAfterResult (dateParse : String → Option ℤ) (now : ℚ)
    (hdrs : List (String × HeaderValue)) : Option JsNum :=
  match hdrs.find? (fun kv => kv.1.toLower == "retry-after") with
  | none => none
  | some kv =>
    match (match kv.2 with | HeaderValue.str s => some s | HeaderValue.arr l => l.head?) with
    | none => none
    | some s => retryAfterFromHeaderStr dateParse now s

/-- `extractRetryAfterMs` from the source.  `dateParse` stands for the
`Date.parse` builtin (`none` = `NaN`); `now` for `Date.now()`; a `none` error
is a non-object input. -/
def extractRetryAfterMs (dateParse : String → Option ℤ) (now : ℚ)
    (error : Option RetryErrorObj) : Option JsNum :=
  match error with
  | none => none
  | some record =>
    match record.headers.bind (headerRetryAfterResult dateParse now) with
    | some r => some r
    | none =>
      match record.retryAfter with
      | some n => some n.mul1000
      | none =>
        match record.retry_after with
        | some n => some n.mul1000
        | none => none

/-- An error thrown by `execute`: a `FailoverError` carrying a reason, or any
other error (tagged so that propagation "unchanged" is observable). -/
inductive JsErr where
  | failover (reason : AuthProfileFailureReason)
  | other (tag : String)
deriving DecidableEq, Repr

/-- The retry test of `withInfiniteRetry`: `error instanceof FailoverError &&
(failoverReason === "rate_limit" || failoverReason === "timeout")`. -/
def isRetryableFailoverError : JsErr → Bool
  | JsErr.failover r =>
    r == AuthProfileFailureReason.rate_limit || r == AuthProfileFailureReason.timeout
  | JsErr.other _ => false

/-- The candidate loop of `calculateMinimumWaitMs`: falsy candidate entries
are skipped; an eligible candidate returns `0` early (`Sum.inl`); otherwise
the minimum truthy future `unusableUntil` is accumulated (`Sum.inr`). -/
def calcMinWaitGo (store : AuthProfileStore) (modelId : String) (now : ℚ) :
    List (Option String) → Option JsNum → JsNum ⊕ Option JsNum
  | [], acc => Sum.inr acc
  | entry :: rest, acc =>
    match entry, strTruthy entry with
    | some profileId, true =>
      if !isProfileInCooldown store profileId (some modelId) now then
        Sum.inl (JsNum.fin 0)
      else
        match resolveProfileUnusableUntilForDisplay store profileId (some modelId) with
        | some u =>
          if u.truthy && JsNum.gtb u (JsNum.fin now) then
            let acc :=
              match acc with
              | none => some u
              | some m => if JsNum.ltb u m then some u else some m
            calcMinWaitGo store modelId now rest acc
          else calcMinWaitGo store modelId now rest acc
        | none => calcMinWaitGo store modelId now rest acc
    | _, _ => calcMinWaitGo store modelId now rest acc

/-- `calculateMinimumWaitMs` from the source; `now` stands for `Date.now()`. -/
def calculateMinimumWaitMs (store : AuthProfileStore)
    (profileCandidates : List (Option String)) (modelId : String) (now : ℚ) : JsNum :=
  match calcMinWaitGo store modelId now profileCandidates none with
  | Sum.inl w => w
  | Sum.inr none => JsNum.fin 0
  | Sum.inr (some m) => JsNum.max2 (JsNum.fin 0) (JsNum.sub m (JsNum.fin now))

/-- The optional wait-computation inputs of `withInfiniteRetry`.  `now` stands
for the `Date.now()` read during a wait computation. -/
structure RetryParams where
  authStore : Option AuthProfileStore := none
  profileCandidates : Option (List (Option String)) := none
  modelId : Option String := none
  now : ℚ := 0

/-- The `waitMs` expression of `withInfiniteRetry`:
`authStore && profileCandidates && modelId ? calculateMinimumWaitMs(...) :
60 * 1000` (a present-but-empty candidate array is truthy; an empty-string
`modelId` is falsy). -/
def retryWaitMs (p : RetryParams) : JsNum :=
  match p.authStore, p.profileCandidates, p.modelId with
  | some store, some cands, some m =>
    if m = "" then JsNum.fin (60 * 1000)
    else calculateMinimumWaitMs store cands m p.now
  | _, _, _ => JsNum.fin (60 * 1000)

/-- The observable outcome of a `withInfiniteRetry` run: the value returned or
error propagated, the sleeps performed (in order), and the final `attempt`. -/
structure RetryTrace (T : Type) where
  result : Except JsErr T
  waits : List JsNum
  attempts : ℕ

/-- The loop of `withInfiniteRetry` with no cancellation requested, driven by
a script of `execute` outcomes (one per loop iteration).  `none` means the
script was exhausted with the driver still looping — the loop itself has no
retry budget. -/
def runInfiniteRetry {T : Type} (p : RetryParams) :
    List (Except JsErr T) → ℕ → Option (RetryTrace T)
  | [], _ => none
  | outcome :: rest, attempt =>
    match outcome with
    | Except.ok v => some { result := Except.ok v, waits := [], attempts := attempt + 1 }
    | Except.error e =>
      if isRetryableFailoverError e then
        match runInfiniteRetry p rest (attempt + 1) with
        | some tr => some { tr with waits := retryWaitMs p :: tr.waits }
        | none => none
      else
        some { result := Except.error e, waits := [], attempts := attempt + 1 }

/-- `withInfiniteRetry` from the source (no cancellation), as a function of
the scripted `execute` outcomes. -/
def withInfiniteRetry {T : Type} (p : RetryParams)
    (outcomes : List (Except JsErr T)) : Option (RetryTrace T) :=
  runInfiniteRetry p outcomes 0

/-- The per-model contribution actually collected by
`resolveProfileUnusableUntil`: the entry's `cooldownUntil` whenever `modelId`
is truthy and that value is truthy (nonzero and not `NaN`) — with no
finiteness or positivity filter. -/
def modelCooldownCandidate (stats : ProfileUsageStats) (modelId : Option String) :
    List JsNum :=
  if strTruthy modelId then
    match modelId.bind (fun m => (modelStatsOf stats m).bind (·.cooldownUntil)) with
    | some c => if c.truthy then [c] else []
    | none => []
  else []

/-- The full list of values over which `resolveProfileUnusableUntil` takes its
maximum: profile-level `cooldownUntil` and `disabledUntil` restricted to
finite strictly-positive numbers, plus the per-model candidate. -/
def unusableCandidates (stats : ProfileUsageStats) (modelId : Option String) :
    List JsNum :=
  (([stats.cooldownUntil, stats.disabledUntil].filterMap id).filter
    (fun v => v.isFinite && JsNum.gtb v (JsNum.fin 0))) ++
  modelCooldownCandidate stats modelId

/-- The resolver as the specification words it: the maximum over
`{cooldownUntil, disabledUntil, modelStats[modelId].cooldownUntil}` keeping
only present, finite, strictly-positive values — i.e. with the per-model
value subject to the same filter as the profile-level ones. -/
def resolveUnusableUntilSpec (stats : ProfileUsageStats) (modelId : Option String) :
    Option JsNum :=
  let vals :=
    (([stats.cooldownUntil, stats.disabledUntil] ++
        [modelId.bind (fun m => (modelStatsOf stats m).bind (·.cooldownUntil))]).filterMap
      id).filter (fun v => v.isFinite && JsNum.gtb v (JsNum.fin 0))
  match vals with
  | [] => none
  | v :: vs => some (vs.foldl JsNum.max2 v)

/-- "The result is absent or a non-negative integer number of milliseconds"
as a decidable test on an optional JavaScript number. -/
def absentOrNonnegIntMs : Option JsNum → Bool
  | none => true
  | some (JsNum.fin v) => decide (0 ≤ v ∧ v.den = 1)
  | some _ => false

/-- The per-model entry of a profile inside an optional store, for stating
concrete evaluations. -/
def modelEntryOf (store : Option AuthProfileStore) (profileId modelId : String) :
    Option ModelUsageStats :=
  store.bind (fun s => (storeStats s profileId).bind (fun ps => modelStatsOf ps modelId))

/-- Usage stats whose only content is a negative per-model `cooldownUntil`. -/
def negativeModelCooldownStats : ProfileUsageStats :=
  { modelStats :=
      some (fun k => if k = "m" then some { cooldownUntil := some (JsNum.fin (-5)) } else none) }

/-- A store with one profile `p1` carrying populated usage stats, including a
per-model entry for `opus` with a recorded `lastFailureAt`. -/
def demoModelStatsMap : StrMap ModelUsageStats :=
  fun k =>
    if k = "opus" then
      some { lastUsed := some (JsNum.fin 1), cooldownUntil := some (JsNum.fin 50),
             errorCount := some 2, lastFailureAt := some (JsNum.fin 5) }
    else none

/-- Populated per-profile stats used by the concrete witnesses. -/
def demoStats : ProfileUsageStats :=
  { lastUsed := some (JsNum.fin 1), cooldownUntil := some (JsNum.fin 70),
    disabledUntil := some (JsNum.fin 80),
    disabledReason := some AuthProfileFailureReason.billing, errorCount := some 3,
    failureCounts := some (FailureCounts.empty.insert AuthProfileFailureReason.billing 2),
    lastFailureAt := some (JsNum.fin 5), modelStats := some demoModelStatsMap }

/-- The usage-stats record of the demo store. -/
def demoUsage : StrMap ProfileUsageStats :=
  fun k => if k = "p1" then some demoStats else none

/-- The demo store: one profile `p1`, populated usage stats. -/
def demoStore : AuthProfileStore :=
  { version := 1,
    profiles := fun k => if k = "p1" then some { provider := "anthropic" } else none,
    usageStats := some demoUsage }

/-- A store with no profiles and no usage stats. -/
def emptyStore : AuthProfileStore :=
  { version := 1, profiles := StrMap.empty, usageStats := none }

/-- Skipping falsy candidate entries leaves the accumulator untouched. -/
theorem calcMinWaitGo_all_none (store : AuthProfileStore) (m : String) (now : ℚ) :
    ∀ (cands : List (Option String)) (acc : Option JsNum),
      (∀ e ∈ cands, e = none) → calcMinWaitGo store m now cands acc = Sum.inr acc := by
  intro cands
  induction cands with
  | nil => intro acc _; rfl
  | cons e rest ih =>
    intro acc h
    have he : e = none := h e (List.mem_cons_self e rest)
    subst he
    simpa [calcMinWaitGo] using ih acc (fun x hx => h x (List.mem_cons_of_mem _ hx))

/-- C9: a profile with no recorded usage stats — the `usageStats` record
absent, or holding no entry for the profile id — is never reported in
cooldown, for any model and any clock value. -/
theorem isProfileInCooldown_no_stats (store : AuthProfileStore) (profileId : String)
    (modelId : Option String) (now : ℚ)
    (h : store.usageStats = none ∨
      ∃ usage, store.usageStats = some usage ∧ usage profileId = none) :
    isProfileInCooldown store profileId modelId now = false := by
  rcases h with h | ⟨usage, h1, h2⟩
  · simp [isProfileInCooldown, storeStats, h]
  · simp [isProfileInCooldown, storeStats, h1, h2]

/-- Witness for `isProfileInCooldown_no_stats`: the empty store, and the demo
store queried for an unknown profile id. -/
theorem isProfileInCooldown_no_stats_witness :
    (emptyStore.usageStats = none) ∧
      isProfileInCooldown emptyStore "p1" none 0 = false ∧
      (demoUsage "p9" = none) ∧
      isProfileInCooldown demoStore "p9" (some "opus") 123 = false :=
  ⟨rfl, isProfileInCooldown_no_stats emptyStore "p1" none 0 (Or.inl rfl),
    rfl,
    isProfileInCooldown_no_stats demoStore "p9" (some "opus") 123
      (Or.inr ⟨demoUsage, rfl, rfl⟩)⟩

/-- C10: when `authStore`, `profileCandidates` and `modelId` are all provided
but every candidate entry is `undefined` (in particular when the list is
empty), the computed wait is `0` ms — not the `60_000` ms default used when
those parameters are absent. -/
theorem retryWait_zero_on_all_undefined_candidates (store : AuthProfileStore)
    (cands : List (Option String)) (m : String) (now : ℚ)
    (hm : m ≠ "") (hc : ∀ e ∈ cands, e = none) :
    calculateMinimumWaitMs store cands m now = JsNum.fin 0 ∧
      retryWaitMs { authStore := some store,
                    profileCandidates := some cands,
                    modelId := some m,
                    now := now } = JsNum.fin 0 ∧
      retryWaitMs { authStore := none,
                    profileCandidates := none,
                    modelId := none,
                    now := now } = JsNum.fin (60 * 1000) := by
  have hgo := calcMinWaitGo_all_none store m now cands none hc
  refine ⟨?_, ?_, rfl⟩
  · simp [calculateMinimumWaitMs, hgo]
  · simp [retryWaitMs, hm, calculateMinimumWaitMs, hgo]

/-- Witness for `retryWait_zero_on_all_undefined_candidates` at an empty list
and at a two-`undefined` list. -/
theorem retryWait_zero_on_all_undefined_candidates_witness :
    ("opus" ≠ "") ∧
      calculateMinimumWaitMs demoStore [] "opus" 7 = JsNum.fin 0 ∧
      retryWaitMs { authStore := some demoStore,
                    profileCandidates := some [none, none],
                    modelId := some "opus",
                    now := 7 } = JsNum.fin 0 :=
  ⟨by decide,
    (retryWait_zero_on_all_undefined_candidates demoStore [] "opus" 7 (by decide)
      (by simp)).1,
    (retryWait_zero_on_all_undefined_candidates demoStore [none, none] "opus" 7 (by decide)
      (by simp)).2.1⟩

/-- C8: for `n ≥ 1`, `base ≥ 60_000` and `maxMs ≥ base`, the billing backoff
follows `min(maxMs, base × 2^min(n−1,10))`, is bounded by `maxMs`, and is
non-decreasing in `n`. -/
theorem billingDisableMs_bounded_and_monotone (n : ℤ) (base maxMs : ℚ)
    (hn : 1 ≤ n) (hbase : (60000 : ℚ) ≤ base) (hmax : base ≤ maxMs) :
    calculateAuthProfileBillingDisableMsWithConfig n base maxMs =
        min maxMs (base * 2 ^ (min (n - 1) 10).toNat) ∧
      calculateAuthProfileBillingDisableMsWithConfig n base maxMs ≤ maxMs ∧
      ∀ n2, n ≤ n2 →
        calculateAuthProfileBillingDisableMsWithConfig n base maxMs ≤
          calculateAuthProfileBillingDisableMsWithConfig n2 base maxMs := by
  have hb : max (60000 : ℚ) base = base := max_eq_right hbase
  have hm : max base maxMs = maxMs := max_eq_right hmax
  have hn1 : max (1 : ℤ) n = n := max_eq_right hn
  refine ⟨?_, ?_, ?_⟩
  · simp only [calculateAuthProfileBillingDisableMsWithConfig, hb, hm, hn1]
  · simp only [calculateAuthProfileBillingDisableMsWithConfig, hb, hm, hn1]
    exact min_le_left _ _
  · intro n2 hn2
    have hn2' : max (1 : ℤ) n2 = n2 := max_eq_right (hn.trans hn2)
    simp only [calculateAuthProfileBillingDisableMsWithConfig, hb, hm, hn1, hn2']
    have hexp : (min (n - 1) 10).toNat ≤ (min (n2 - 1) 10).toNat :=
      Int.toNat_le_toNat (min_le_min (sub_le_sub_right hn2 1) le_rfl)
    have hpow : (2 : ℚ) ^ (min (n - 1) 10).toNat ≤ 2 ^ (min (n2 - 1) 10).toNat :=
      pow_le_pow_right₀ (by norm_num) hexp
    have hbase0 : (0 : ℚ) ≤ base := le_trans (by norm_num) hbase
    exact min_le_min le_rfl (mul_le_mul_of_nonneg_left hpow hbase0)

/-- Witness for `billingDisableMs_bounded_and_monotone` at
`(n, base, maxMs) = (2, 18_000_000, 86_400_000)` and `n2 = 5`. -/
theorem billingDisableMs_bounded_and_monotone_witness :
    (1 : ℤ) ≤ 2 ∧ (60000 : ℚ) ≤ 18000000 ∧ (18000000 : ℚ) ≤ 86400000 ∧
      calculateAuthProfileBillingDisableMsWithConfig 2 18000000 86400000 ≤ 86400000 ∧
      calculateAuthProfileBillingDisableMsWithConfig 2 18000000 86400000 ≤
        calculateAuthProfileBillingDisableMsWithConfig 5 18000000 86400000 :=
  ⟨by norm_num, by norm_num, by norm_num,
    (billingDisableMs_bounded_and_monotone 2 18000000 86400000 (by norm_num) (by norm_num)
      (by norm_num)).2.1,
    (billingDisableMs_bounded_and_monotone 2 18000000 86400000 (by norm_num) (by norm_num)
      (by norm_num)).2.2 5 (by norm_num)⟩

/-- C7: inside the retry loop with no cancellation requested, a thrown error
leads to a sleep and a retry iff it is a `FailoverError` whose reason is
`rate_limit` or `timeout`; any other error — a non-failover error or a
failover error with reason `billing`, `auth`, `format` or `unknown` — is
propagated unchanged with no sleep. -/
theorem withInfiniteRetry_error_classification {T : Type} (p : RetryParams)
    (e : JsErr) (rest : List (Except JsErr T)) :
    (isRetryableFailoverError e = true ↔
      (e = JsErr.failover AuthProfileFailureReason.rate_limit ∨
        e = JsErr.failover AuthProfileFailureReason.timeout)) ∧
      (isRetryableFailoverError e = false →
        withInfiniteRetry p (Except.error e :: rest) =
          some { result := Except.error e, waits := [], attempts := 1 }) ∧
      (isRetryableFailoverError e = true →
        withInfiniteRetry p (Except.error e :: rest) =
          (runInfiniteRetry p rest 1).map
            (fun tr => { tr with waits := retryWaitMs p :: tr.waits })) := by
  refine ⟨?_, ?_, ?_⟩
  · cases e with
    | failover r => cases r <;> simp [isRetryableFailoverError]
    | other tag => simp [isRetryableFailoverError]
  · intro h
    simp [withInfiniteRetry, runInfiniteRetry, h]
  · intro h
    cases hr : runInfiniteRetry p rest 1 with
    | none => simp [withInfiniteRetry, runInfiniteRetry, h, hr]
    | some tr => simp [withInfiniteRetry, runInfiniteRetry, h, hr]

/-- Witness for `withInfiniteRetry_error_classification`: a plain error and a
`billing` failover error propagate unchanged on attempt 1; a `rate_limit`
failover error sleeps once and the loop consumes the next outcome. -/
theorem withInfiniteRetry_error_classification_witness :
    (isRetryableFailoverError (JsErr.other "boom") = false ∧
      withInfiniteRetry {} ([Except.error (JsErr.other "boom")] : List (Except JsErr ℕ)) =
        some { result := Except.error (JsErr.other "boom"), waits := [], attempts := 1 }) ∧
      (isRetryableFailoverError (JsErr.failover AuthProfileFailureReason.billing) = false ∧
        withInfiniteRetry {}
            ([Except.error (JsErr.failover AuthProfileFailureReason.billing)] :
              List (Except JsErr ℕ)) =
          some { result := Except.error (JsErr.failover AuthProfileFailureReason.billing),
                 waits := [], attempts := 1 }) ∧
      (isRetryableFailoverError (JsErr.failover AuthProfileFailureReason.rate_limit) = true ∧
        withInfiniteRetry {}
            ([Except.error (JsErr.failover AuthProfileFailureReason.rate_limit),
              Except.ok 7] : List (Except JsErr ℕ)) =
          (runInfiniteRetry ({} : RetryParams) [Except.ok (7 : ℕ)] 1).map
            (fun tr => { tr with waits := retryWaitMs {} :: tr.waits })) :=
  ⟨⟨rfl, (withInfiniteRetry_error_classification {} (JsErr.other "boom") []).2.1 rfl⟩,
    ⟨rfl, (withInfiniteRetry_error_classification {}
      (JsErr.failover AuthProfileFailureReason.billing) []).2.1 rfl⟩,
    ⟨rfl, (withInfiniteRetry_error_classification {}
      (JsErr.failover AuthProfileFailureReason.rate_limit) [Except.ok (7 : ℕ)]).2.2 rfl⟩⟩

/-- C5: when the recorded `lastFailureAt` is a positive finite number older
than the failure window, any profile-wide failure (`auth`, `format`,
`unknown`, or `rate_limit`/`timeout` without a truthy model id) resets the
profile error count to exactly `1`, whatever it was before. -/
theorem computeNext_profileWide_reset_after_window (existing : ProfileUsageStats)
    (now : ℚ) (reason : AuthProfileFailureReason) (cfg : ResolvedAuthCooldownConfig)
    (modelId : Option String) (retryAfterMs : Option ℚ) (lf : ℚ)
    (hlf : existing.lastFailureAt = some (JsNum.fin lf)) (hpos : 0 < lf)
    (hwin : cfg.failureWindowMs < now - lf)
    (hbill : reason ≠ AuthProfileFailureReason.billing)
    (hwide : strTruthy modelId = false ∨
      (reason ≠ AuthProfileFailureReason.rate_limit ∧
        reason ≠ AuthProfileFailureReason.timeout)) :
    (computeNextProfileUsageStats existing now reason cfg modelId retryAfterMs).errorCount =
      some 1 := by
  have hwe : windowExpiredCheck existing.lastFailureAt now cfg.failureWindowMs = true := by
    simp [windowExpiredCheck, hlf, JsNum.gtb, JsNum.ltb, JsNum.sub, hpos, hwin]
  have hspec : (strTruthy modelId &&
      (decide (reason = AuthProfileFailureReason.rate_limit) ||
        decide (reason = AuthProfileFailureReason.timeout))) = false := by
    rcases hwide with h | ⟨h1, h2⟩
    · simp [h]
    · simp [h1, h2]
  cases modelId <;>
    simp_all [computeNextProfileUsageStats, hwe, hbill]

/-- Witness for `computeNext_profileWide_reset_after_window`: the demo stats
(error count 3, last failure at 5 ms) hit with an `unknown` failure just
after the 24-hour window. -/
theorem computeNext_profileWide_reset_after_window_witness :
    demoStats.lastFailureAt = some (JsNum.fin 5) ∧ (0 : ℚ) < 5 ∧
      (86400000 : ℚ) < 86400006 - 5 ∧
      (computeNextProfileUsageStats demoStats 86400006 AuthProfileFailureReason.unknown
          { billingBackoffMs := 18000000, billingMaxMs := 86400000,
            failureWindowMs := 86400000 } none none).errorCount = some 1 :=
  ⟨rfl, by norm_num, by norm_num,
    computeNext_profileWide_reset_after_window demoStats 86400006
      AuthProfileFailureReason.unknown
      { billingBackoffMs := 18000000, billingMaxMs := 86400000,
        failureWindowMs := 86400000 } none none 5 rfl (by norm_num) (by norm_num)
      (by decide) (Or.inl rfl)⟩

/-- `<` on JavaScript numbers is irreflexive. -/
theorem JsNum.ltb_irrefl (a : JsNum) : JsNum.ltb a a = false := by
  cases a <;> simp [JsNum.ltb]

/-- `<` on JavaScript numbers is asymmetric. -/
theorem JsNum.ltb_asymm {a b : JsNum} (h : JsNum.ltb a b = true) :
    JsNum.ltb b a = false := by
  cases a <;> cases b <;> simp_all [JsNum.ltb]
  linarith

/-- On non-`NaN` numbers, "not less than" is transitive. -/
theorem JsNum.ltb_false_trans {a b c : JsNum} (ha : a ≠ JsNum.nan) (hb : b ≠ JsNum.nan)
    (hc : c ≠ JsNum.nan) (hab : JsNum.ltb a b = false) (hbc : JsNum.ltb b c = false) :
    JsNum.ltb a c = false := by
  cases a <;> cases b <;> cases c <;> simp_all [JsNum.ltb]
  linarith

/-- On non-`NaN` numbers, `Math.max` picks one of its arguments by `<`. -/
theorem JsNum.max2_cases {a b : JsNum} (ha : a ≠ JsNum.nan) (hb : b ≠ JsNum.nan) :
    JsNum.max2 a b = if JsNum.ltb a b then b else a := by
  cases a <;> cases b <;> simp_all [JsNum.max2]

/-- `Math.max` of non-`NaN` numbers is not `NaN`. -/
theorem JsNum.max2_ne_nan {a b : JsNum} (ha : a ≠ JsNum.nan) (hb : b ≠ JsNum.nan) :
    JsNum.max2 a b ≠ JsNum.nan := by
  rw [JsNum.max2_cases ha hb]
  split <;> assumption

/-- `Math.max a b` is not below `a`. -/
theorem JsNum.max2_not_lt_left {a b : JsNum} (ha : a ≠ JsNum.nan) (hb : b ≠ JsNum.nan) :
    JsNum.ltb (JsNum.max2 a b) a = false := by
  rw [JsNum.max2_cases ha hb]
  cases hlt : JsNum.ltb a b with
  | false => simpa [hlt] using JsNum.ltb_irrefl a
  | true => simpa [hlt] using JsNum.ltb_asymm hlt

/-- `Math.max a b` is not below `b`. -/
theorem JsNum.max2_not_lt_right {a b : JsNum} (ha : a ≠ JsNum.nan) (hb : b ≠ JsNum.nan) :
    JsNum.ltb (JsNum.max2 a b) b = false := by
  rw [JsNum.max2_cases ha hb]
  cases hlt : JsNum.ltb a b with
  | false => simp [hlt]
  | true => simpa [hlt] using JsNum.ltb_irrefl b

/-- Folding `Math.max` over a `NaN`-free list yields a member of the list that
no element exceeds. -/
theorem foldl_max2_spec : ∀ (vs : List JsNum) (v : JsNum), v ≠ JsNum.nan →
    (∀ x ∈ vs, x ≠ JsNum.nan) →
    (vs.foldl JsNum.max2 v ∈ v :: vs) ∧
      ∀ w ∈ v :: vs, JsNum.ltb (vs.foldl JsNum.max2 v) w = false := by
  intro vs
  induction vs with
  | nil =>
    intro v hv _
    refine ⟨by simp, ?_⟩
    intro w hw
    rw [List.mem_singleton] at hw
    subst hw
    exact JsNum.ltb_irrefl w
  | cons a vs ih =>
    intro v hv hxs
    have ha : a ≠ JsNum.nan := hxs a (List.mem_cons_self a vs)
    have hvs : ∀ x ∈ vs, x ≠ JsNum.nan := fun x hx => hxs x (List.mem_cons_of_mem _ hx)
    have hv' : JsNum.max2 v a ≠ JsNum.nan := JsNum.max2_ne_nan hv ha
    obtain ⟨hmem, hub⟩ := ih (JsNum.max2 v a) hv' hvs
    have hfold : (a :: vs).foldl JsNum.max2 v = vs.foldl JsNum.max2 (JsNum.max2 v a) := rfl
    have hres_ne : vs.foldl JsNum.max2 (JsNum.max2 v a) ≠ JsNum.nan := by
      rcases List.mem_cons.mp hmem with h | h
      · rw [h]; exact hv'
      · exact hvs _ h
    have hub_m : JsNum.ltb (vs.foldl JsNum.max2 (JsNum.max2 v a)) (JsNum.max2 v a) = false :=
      hub (JsNum.max2 v a) (List.mem_cons_self _ _)
    constructor
    · rw [hfold]
      rcases List.mem_cons.mp hmem with h | h
      · rw [h, JsNum.max2_cases hv ha]
        split
        · exact List.mem_cons_of_mem _ (List.mem_cons_self a vs)
        · exact List.mem_cons_self v (a :: vs)
      · exact List.mem_cons_of_mem _ (List.mem_cons_of_mem _ h)
    · intro w hw
      rw [hfold]
      rcases List.mem_cons.mp hw with h | h
      · subst h
        exact JsNum.ltb_false_trans hres_ne hv' hv hub_m (JsNum.max2_not_lt_left hv ha)
      · rcases List.mem_cons.mp h with h2 | h2
        · subst h2
          exact JsNum.ltb_false_trans hres_ne hv' ha hub_m (JsNum.max2_not_lt_right hv ha)
        · exact hub w (List.mem_cons_of_mem _ h2)

/-- The per-model candidate list never holds `NaN` (the truthiness guard
rejects it). -/
theorem modelCooldownCandidate_ne_nan (stats : ProfileUsageStats)
    (modelId : Option String) :
    ∀ x ∈ modelCooldownCandidate stats modelId, x ≠ JsNum.nan := by
  intro x hx
  unfold modelCooldownCandidate at hx
  by_cases h1 : strTruthy modelId = true
  · rw [if_pos h1] at hx
    cases hmc : modelId.bind (fun m => (modelStatsOf stats m).bind (·.cooldownUntil)) with
    | none => rw [hmc] at hx; simp at hx
    | some c =>
      rw [hmc] at hx
      cases h2 : c.truthy with
      | true =>
        simp [h2] at hx
        subst hx
        intro hn
        rw [hn] at h2
        simp [JsNum.truthy] at h2
      | false => simp [h2] at hx
  · rw [if_neg h1] at hx; simp at hx

/-- No candidate collected by the resolver is `NaN`. -/
theorem unusableCandidates_ne_nan (stats : ProfileUsageStats) (modelId : Option String) :
    ∀ x ∈ unusableCandidates stats modelId, x ≠ JsNum.nan := by
  intro x hx
  unfold unusableCandidates at hx
  rcases List.mem_append.mp hx with h | h
  · have hp := List.of_mem_filter h
    intro hxe
    subst hxe
    simp [JsNum.isFinite] at hp
  · exact modelCooldownCandidate_ne_nan stats modelId x h

/-- The resolver computes exactly the fold of `Math.max` over
`unusableCandidates`. -/
theorem resolve_eq_max_of_candidates (stats : ProfileUsageStats)
    (modelId : Option String) :
    resolveProfileUnusableUntil stats modelId =
      match unusableCandidates stats modelId with
      | [] => none
      | v :: vs => some (vs.foldl JsNum.max2 v) := by
  unfold resolveProfileUnusableUntil unusableCandidates modelCooldownCandidate
  cases h : strTruthy modelId with
  | false => simp [h]
  | true =>
    simp only [h, if_true]
    cases hmc : modelId.bind (fun m => (modelStatsOf stats m).bind (·.cooldownUntil)) with
    | none => simp
    | some c =>
      by_cases hct : c.truthy = true
      · simp [hct]
      · simp [hct]

/-- C1 counterexample: on stats whose only content is a per-model
`cooldownUntil` of `-5`, the resolver returns `-5`, while "considering only
present, finite, strictly-positive values" (the claim, formalised as
`resolveUnusableUntilSpec`) would return `null` — negative (and infinite)
per-model values are not treated as absent. -/
theorem resolveProfileUnusableUntil_negative_model_cooldown :
    resolveProfileUnusableUntil negativeModelCooldownStats (some "m") =
        some (JsNum.fin (-5)) ∧
      resolveUnusableUntilSpec negativeModelCooldownStats (some "m") = none := by
  constructor <;> rfl

/-- C1 (amended): `resolveProfileUnusableUntil` returns `null` exactly when
no value qualifies, and otherwise returns a qualifying value that no other
qualifying value exceeds — where the qualifying values are `cooldownUntil`
and `disabledUntil` restricted to present, finite, strictly-positive
numbers, plus `modelStats[modelId].cooldownUntil` whenever it is present and
truthy (nonzero and not `NaN`, so including negative and infinite values). -/
theorem resolveProfileUnusableUntil_is_max_of_candidates (stats : ProfileUsageStats)
    (modelId : Option String) :
    (resolveProfileUnusableUntil stats modelId = none ↔
      unusableCandidates stats modelId = []) ∧
      ∀ v, resolveProfileUnusableUntil stats modelId = some v →
        v ∈ unusableCandidates stats modelId ∧
          ∀ w ∈ unusableCandidates stats modelId, JsNum.ltb v w = false := by
  have heq := resolve_eq_max_of_candidates stats modelId
  constructor
  · rw [heq]
    cases hc : unusableCandidates stats modelId with
    | nil => simp
    | cons a vs => simp
  · intro v hv
    rw [heq] at hv
    cases hc : unusableCandidates stats modelId with
    | nil => rw [hc] at hv; simp at hv
    | cons a vs =>
      rw [hc] at hv
      simp only [Option.some.injEq] at hv
      have hnn := unusableCandidates_ne_nan stats modelId
      rw [hc] at hnn
      have ha : a ≠ JsNum.nan := hnn a (List.mem_cons_self a vs)
      have hvs : ∀ x ∈ vs, x ≠ JsNum.nan := fun x hx => hnn x (List.mem_cons_of_mem _ hx)
      obtain ⟨hmem, hub⟩ := foldl_max2_spec vs a ha hvs
      rw [← hv]
      exact ⟨hmem, hub⟩

/-- Witness for `resolveProfileUnusableUntil_is_max_of_candidates` on the
demo stats queried for `opus`: the result `80` is a candidate and an upper
bound of the candidate list `[70, 80, 50]`. -/
theorem resolveProfileUnusableUntil_is_max_of_candidates_witness :
    resolveProfileUnusableUntil demoStats (some "opus") = some (JsNum.fin 80) ∧
      (JsNum.fin 80 ∈ unusableCandidates demoStats (some "opus") ∧
        ∀ w ∈ unusableCandidates demoStats (some "opus"),
          JsNum.ltb (JsNum.fin 80) w = false) :=
  ⟨rfl,
    (resolveProfileUnusableUntil_is_max_of_candidates demoStats (some "opus")).2
      (JsNum.fin 80) rfl⟩

/-- C3 counterexample: a direct numeric `retryAfter` of `-1` seconds is
converted to `-1000` ms with no clamping, so the output is not a
non-negative integer. -/
theorem extractRetryAfterMs_negative_direct :
    extractRetryAfterMs (fun _ => none) 0
        (some { retryAfter := some (JsNum.fin (-1)) }) = some (JsNum.fin (-1000)) ∧
      absentOrNonnegIntMs (some (JsNum.fin (-1000))) = false := by
  constructor
  · simp only [extractRetryAfterMs, JsNum.mul1000, Option.bind_none,
      doubleOverflowThreshold]
    norm_num
  · simp only [absentOrNonnegIntMs, decide_eq_false_iff_not]
    norm_num

/-- `parseFloat` of a digit string is non-negative. -/
theorem parseNumericStr_nonneg (s : String) : 0 ≤ parseNumericStr s := by
  simp only [parseNumericStr]
  cases s.toList.dropWhile Char.isDigit with
  | nil => positivity
  | cons c frac => positivity

/-- The binary64 overflow threshold is positive. -/
theorem doubleOverflowThreshold_pos : (0 : ℚ) < doubleOverflowThreshold := by
  have h : (2 : ℚ) ^ 970 < 2 ^ 1024 := by
    apply pow_lt_pow_right₀ (by norm_num) (by norm_num)
  simp [doubleOverflowThreshold, sub_pos, h]

/-- Every value produced by the per-value tail of the `headers` block is a
non-negative integer number of milliseconds, or `Infinity` when the numeric
seconds value overflows the double range (given an integer clock and an
integer-valued `Date.parse`). -/
theorem retryAfterFromHeaderStr_nonneg_int_or_inf (dateParse : String → Option ℤ)
    (now : ℤ) (s : String) (r : JsNum)
    (h : retryAfterFromHeaderStr dateParse (now : ℚ) s = some r) :
    absentOrNonnegIntMs (some r) = true ∨ r = JsNum.inf := by
  unfold retryAfterFromHeaderStr at h
  by_cases he : s = ""
  · rw [if_pos he] at h; simp at h
  · rw [if_neg he] at h
    by_cases hnum : isNumericStr s = true
    · rw [if_pos hnum] at h
      simp only [Option.some.injEq] at h
      subst h
      unfold jsParseFloatNumeric
      by_cases hov : doubleOverflowThreshold ≤ parseNumericStr s
      · rw [if_pos hov]
        right
        rfl
      · rw [if_neg hov]
        have hq : (0 : ℚ) ≤ parseNumericStr s := parseNumericStr_nonneg s
        have h0 : (0 : ℚ) ≤ parseNumericStr s * 1000 := by positivity
        by_cases hov2 : doubleOverflowThreshold ≤ parseNumericStr s * 1000
        · right
          simp only [JsNum.mul1000, if_pos hov2]
          rfl
        · have hneg : ¬(parseNumericStr s * 1000 ≤ -doubleOverflowThreshold) := by
            have hT := doubleOverflowThreshold_pos
            intro hc
            linarith
          left
          simp only [JsNum.mul1000, if_neg hov2, if_neg hneg, JsNum.jsCeil,
            absentOrNonnegIntMs, decide_eq_true_eq]
          refine ⟨?_, Rat.den_intCast _⟩
          exact_mod_cast Int.ceil_nonneg h0
    · rw [if_neg hnum] at h
      cases hd : dateParse s with
      | none => rw [hd] at h; simp at h
      | some d =>
        rw [hd] at h
        simp only [Option.some.injEq] at h
        subst h
        left
        simp only [absentOrNonnegIntMs, decide_eq_true_eq]
        have hcast : (d : ℚ) - (now : ℚ) = ((d - now : ℤ) : ℚ) := by push_cast; ring
        constructor
        · split
          · linarith
          · exact le_rfl
        · split
          · rw [hcast]; exact Rat.den_intCast _
          · rfl

/-- Every value produced by the `headers` block is a non-negative integer
number of milliseconds, or `Infinity` on double overflow. -/
theorem headerRetryAfterResult_nonneg_int_or_inf (dateParse : String → Option ℤ)
    (now : ℤ) (hdrs : List (String × HeaderValue)) (r : JsNum)
    (h : headerRetryAfterResult dateParse (now : ℚ) hdrs = some r) :
    absentOrNonnegIntMs (some r) = true ∨ r = JsNum.inf := by
  unfold headerRetryAfterResult at h
  split at h
  · simp at h
  · split at h
    · simp at h
    · exact retryAfterFromHeaderStr_nonneg_int_or_inf dateParse now _ r h

/-- C3 (amended): the extractor returns absent, `Infinity` (when the numeric
seconds value in a `Retry-After` header overflows the double range), or a
non-negative integer number of milliseconds — except on the direct-property
path: when the `headers` block yields nothing and a numeric `retryAfter` or
`retry_after` property is present, the result is exactly that value times
1000 (double multiplication), with no clamping or rounding, so it is
non-negative only when the property is. -/
theorem extractRetryAfterMs_nonneg_or_direct (dateParse : String → Option ℤ)
    (now : ℤ) (err : Option RetryErrorObj) :
    absentOrNonnegIntMs (extractRetryAfterMs dateParse (now : ℚ) err) = true ∨
      extractRetryAfterMs dateParse (now : ℚ) err = some JsNum.inf ∨
      ∃ record n, err = some record ∧
        (record.retryAfter = some n ∨ record.retry_after = some n) ∧
        extractRetryAfterMs dateParse (now : ℚ) err = some n.mul1000 := by
  cases err with
  | none => left; rfl
  | some record =>
    cases hh : record.headers.bind (headerRetryAfterResult dateParse (now : ℚ)) with
    | some r =>
      have hres : extractRetryAfterMs dateParse (now : ℚ) (some record) = some r := by
        simp [extractRetryAfterMs, hh]
      obtain ⟨hdrs, hhd, hblock⟩ := Option.bind_eq_some.mp hh
      rcases headerRetryAfterResult_nonneg_int_or_inf dateParse now hdrs r hblock
        with hc | hc
      · left; rw [hres]; exact hc
      · right; left; rw [hres, hc]
    | none =>
      cases hra : record.retryAfter with
      | some n =>
        right; right
        exact ⟨record, n, rfl, Or.inl hra, by simp [extractRetryAfterMs, hh, hra]⟩
      | none =>
        cases hra2 : record.retry_after with
        | some n =>
          right; right
          exact ⟨record, n, rfl, Or.inr hra2, by simp [extractRetryAfterMs, hh, hra, hra2]⟩
        | none =>
          left
          simp [extractRetryAfterMs, hh, hra, hra2, absentOrNonnegIntMs]

/-- Writing an entry and reading it back through `storeStats`. -/
theorem storeStats_insert (store : AuthProfileStore) (usage : StrMap ProfileUsageStats)
    (pid : String) (ns : ProfileUsageStats) :
    storeStats { store with usageStats := some (usage.insert pid ns) } pid = some ns := by
  simp [storeStats, StrMap.insert]

/-- Writing an entry leaves other profiles' entries unread. -/
theorem storeStats_insert_ne (store : AuthProfileStore)
    (usage : StrMap ProfileUsageStats) (pid q : String) (ns : ProfileUsageStats)
    (h : q ≠ pid) :
    storeStats { store with usageStats := some (usage.insert pid ns) } q = usage q := by
  simp [storeStats, StrMap.insert, h]

/-- A profile whose stats carry no `cooldownUntil` and no `disabledUntil` is
not in cooldown under a model-free query, at any clock value. -/
theorem isProfileInCooldown_cleared (store : AuthProfileStore) (pid : String) (t : ℚ)
    (ns : ProfileUsageStats) (h : storeStats store pid = some ns)
    (h1 : ns.cooldownUntil = none) (h2 : ns.disabledUntil = none) :
    isProfileInCooldown store pid none t = false := by
  simp [isProfileInCooldown, h, resolveProfileUnusableUntil, h1, h2, strTruthy]

/-- C4: after `markAuthProfileUsed` on an existing profile, the error count
is `0`, the cooldown/disable fields and failure counts are cleared,
`lastUsed` is `now`, the profile is not in cooldown at any time `t ≥ now`,
and — when a (truthy) model id was given — that model's entry has error
count `0`, no cooldown, and `lastUsed = now`. -/
theorem markAuthProfileUsed_success_resets (store : AuthProfileStore)
    (profileId : String) (modelId : Option String) (now t : ℚ)
    (hp : (store.profiles profileId).isSome = true) (_ht : now ≤ t) :
    ∃ store2 ns, markAuthProfileUsed store profileId modelId now = some store2 ∧
      storeStats store2 profileId = some ns ∧
      ns.errorCount = some 0 ∧ ns.cooldownUntil = none ∧ ns.disabledUntil = none ∧
      ns.disabledReason = none ∧ ns.failureCounts = none ∧
      ns.lastUsed = some (JsNum.fin now) ∧
      isProfileInCooldown store2 profileId none t = false ∧
      ∀ m, modelId = some m → m ≠ "" →
        ∃ me, modelStatsOf ns m = some me ∧ me.errorCount = some 0 ∧
          me.cooldownUntil = none ∧ me.lastUsed = some (JsNum.fin now) := by
  obtain ⟨cred, hc⟩ := Option.isSome_iff_exists.mp hp
  cases modelId with
  | none =>
    simp only [markAuthProfileUsed, hc, strTruthy, Bool.false_eq_true, if_false]
    refine ⟨_, _, rfl, storeStats_insert _ _ _ _, rfl, rfl, rfl, rfl, rfl, rfl, ?_, ?_⟩
    · exact isProfileInCooldown_cleared _ _ _ _ (storeStats_insert _ _ _ _) rfl rfl
    · intro m hm
      exact absurd hm (by simp)
  | some m =>
    by_cases hm : m = ""
    · subst hm
      have hst : strTruthy (some "") = false := by simp [strTruthy]
      simp only [markAuthProfileUsed, hc, hst, Bool.false_eq_true, if_false]
      refine ⟨_, _, rfl, storeStats_insert _ _ _ _, rfl, rfl, rfl, rfl, rfl, rfl, ?_, ?_⟩
      · exact isProfileInCooldown_cleared _ _ _ _ (storeStats_insert _ _ _ _) rfl rfl
      · intro m2 hm2 hne
        rw [Option.some.injEq] at hm2
        exact absurd hm2.symm hne
    · have hst : strTruthy (some m) = true := by simp [strTruthy, hm]
      simp only [markAuthProfileUsed, hc, hst, if_true]
      refine ⟨_, _, rfl, storeStats_insert _ _ _ _, rfl, rfl, rfl, rfl, rfl, rfl, ?_, ?_⟩
      · exact isProfileInCooldown_cleared _ _ _ _ (storeStats_insert _ _ _ _) rfl rfl
      · intro m2 hm2 _
        rw [Option.some.injEq] at hm2
        subst hm2
        refine ⟨markUsedModelEntry now, ?_, rfl, rfl, rfl⟩
        simp [modelStatsOf, StrMap.insert, markUsedModelEntry]

/-- Witness for `markAuthProfileUsed_success_resets` on the demo store (whose
`p1` stats carry cooldowns, a disable, failure counts and model stats), with
model id `opus`, `now = 100`, `t = 200`. -/
theorem markAuthProfileUsed_success_resets_witness :
    (demoStore.profiles "p1").isSome = true ∧ (100 : ℚ) ≤ 200 ∧
      (∃ store2 ns, markAuthProfileUsed demoStore "p1" (some "opus") 100 = some store2 ∧
        storeStats store2 "p1" = some ns ∧
        ns.errorCount = some 0 ∧ ns.cooldownUntil = none ∧ ns.disabledUntil = none ∧
        ns.disabledReason = none ∧ ns.failureCounts = none ∧
        ns.lastUsed = some (JsNum.fin 100) ∧
        isProfileInCooldown store2 "p1" none 200 = false ∧
        ∀ m, (some "opus" : Option String) = some m → m ≠ "" →
          ∃ me, modelStatsOf ns m = some me ∧ me.errorCount = some 0 ∧
            me.cooldownUntil = none ∧ me.lastUsed = some (JsNum.fin 100)) :=
  ⟨rfl, by norm_num,
    markAuthProfileUsed_success_resets demoStore "p1" (some "opus") 100 200 rfl
      (by norm_num)⟩

/-- C2 counterexample: `markAuthProfileUsed` with a model id does not
preserve the unset fields of the existing model entry — the demo store's
`opus` entry carries `lastFailureAt = 5`, and after a successful use at
`now = 100` the entry's `lastFailureAt` is gone (the entry was rebuilt from
scratch instead of being spread from the existing one). -/
theorem markAuthProfileUsed_drops_model_lastFailureAt :
    (modelEntryOf (some demoStore) "p1" "opus").map ModelUsageStats.lastFailureAt =
        some (some (JsNum.fin 5)) ∧
      (modelEntryOf (markAuthProfileUsed demoStore "p1" (some "opus") 100) "p1"
          "opus").map ModelUsageStats.lastFailureAt = some none := by
  constructor <;> rfl

/-- C2 (amended): `markAuthProfileUsed` preserves what it does not set at the
profile level — `lastFailureAt` and every other model's entry are unchanged,
and other profiles are untouched — but the used model's entry is replaced
wholesale by the fresh record `{lastUsed: now, errorCount: 0}`, dropping any
other field the existing entry carried (in particular `lastFailureAt`). -/
theorem markAuthProfileUsed_frame (store : AuthProfileStore) (profileId m : String)
    (now : ℚ) (usage : StrMap ProfileUsageStats) (stats : ProfileUsageStats)
    (hp : (store.profiles profileId).isSome = true) (hm : m ≠ "")
    (hu : store.usageStats = some usage) (hs : usage profileId = some stats) :
    ∃ store2 ns, markAuthProfileUsed store profileId (some m) now = some store2 ∧
      storeStats store2 profileId = some ns ∧
      ns.lastFailureAt = stats.lastFailureAt ∧
      (∀ k, k ≠ m → modelStatsOf ns k = modelStatsOf stats k) ∧
      modelStatsOf ns m = some (markUsedModelEntry now) ∧
      ∀ q, q ≠ profileId → storeStats store2 q = storeStats store q := by
  obtain ⟨cred, hc⟩ := Option.isSome_iff_exists.mp hp
  have hst : strTruthy (some m) = true := by simp [strTruthy, hm]
  simp only [markAuthProfileUsed, hc, hst, if_true, hu, Option.getD_some, hs]
  refine ⟨_, _, rfl, storeStats_insert _ _ _ _, rfl, ?_, ?_, ?_⟩
  · intro k hk
    cases hms : stats.modelStats with
    | none => simp [modelStatsOf, StrMap.insert, hk, hms, StrMap.empty]
    | some mm => simp [modelStatsOf, StrMap.insert, hk, hms]
  · simp [modelStatsOf, StrMap.insert]
  · intro q hq
    rw [storeStats_insert_ne _ _ _ _ _ hq]
    simp [storeStats, hu]

/-- Witness for `markAuthProfileUsed_frame` on the demo store: the profile's
`lastFailureAt` and the non-`opus` entries survive, while `opus` is replaced
by the fresh record. -/
theorem markAuthProfileUsed_frame_witness :
    (demoStore.profiles "p1").isSome = true ∧ ("opus" ≠ "") ∧
      demoStore.usageStats = some demoUsage ∧ demoUsage "p1" = some demoStats ∧
      ∃ store2 ns, markAuthProfileUsed demoStore "p1" (some "opus") 100 = some store2 ∧
        storeStats store2 "p1" = some ns ∧
        ns.lastFailureAt = demoStats.lastFailureAt ∧
        (∀ k, k ≠ "opus" → modelStatsOf ns k = modelStatsOf demoStats k) ∧
        modelStatsOf ns "opus" = some (markUsedModelEntry 100) ∧
        ∀ q, q ≠ "p1" → storeStats store2 q = storeStats demoStore q :=
  ⟨rfl, by decide, rfl, rfl,
    markAuthProfileUsed_frame demoStore "p1" "opus" 100 demoUsage demoStats rfl
      (by decide) rfl rfl⟩

/-- C6: `clearAuthProfileCooldown` without a model id zeroes the error count
and clears `cooldownUntil` while keeping `disabledUntil`, `disabledReason`,
`failureCounts`, `lastUsed`, `lastFailureAt` and the whole `modelStats`
record; with a (truthy) model id it rewrites only that model's entry —
zeroing its error count and clearing its cooldown, keeping the entry's other
fields — and leaves every profile-level field and every other model's entry
unchanged. -/
theorem clearAuthProfileCooldown_frame (store : AuthProfileStore)
    (usage : StrMap ProfileUsageStats) (stats : ProfileUsageStats) (profileId : String)
    (hu : store.usageStats = some usage) (hs : usage profileId = some stats) :
    (∃ store2 ns, clearAuthProfileCooldown store profileId none = some store2 ∧
      storeStats store2 profileId = some ns ∧
      ns.errorCount = some 0 ∧ ns.cooldownUntil = none ∧
      ns.disabledUntil = stats.disabledUntil ∧ ns.disabledReason = stats.disabledReason ∧
      ns.failureCounts = stats.failureCounts ∧ ns.modelStats = stats.modelStats ∧
      ns.lastUsed = stats.lastUsed ∧ ns.lastFailureAt = stats.lastFailureAt) ∧
      ∀ m, m ≠ "" →
        ∃ store2 ns, clearAuthProfileCooldown store profileId (some m) = some store2 ∧
          storeStats store2 profileId = some ns ∧
          ns.errorCount = stats.errorCount ∧ ns.cooldownUntil = stats.cooldownUntil ∧
          ns.disabledUntil = stats.disabledUntil ∧
          ns.disabledReason = stats.disabledReason ∧
          ns.failureCounts = stats.failureCounts ∧ ns.lastUsed = stats.lastUsed ∧
          ns.lastFailureAt = stats.lastFailureAt ∧
          (∀ k, k ≠ m → modelStatsOf ns k = modelStatsOf stats k) ∧
          (∀ entry, modelStatsOf stats m = some entry →
            modelStatsOf ns m =
              some { entry with errorCount := some 0, cooldownUntil := none }) ∧
          (modelStatsOf stats m = none → modelStatsOf ns m = none) := by
  constructor
  · have hst : strTruthy (none : Option String) = false := rfl
    simp only [clearAuthProfileCooldown, hu, hs, hst, Bool.false_eq_true, if_false]
    exact ⟨_, _, rfl, storeStats_insert _ _ _ _, rfl, rfl, rfl, rfl, rfl, rfl, rfl, rfl⟩
  · intro m hm
    have hst : strTruthy (some m) = true := by simp [strTruthy, hm]
    simp only [clearAuthProfileCooldown, hu, hs, hst, if_true]
    cases hms : stats.modelStats with
    | none =>
      refine ⟨_, _, rfl, storeStats_insert _ _ _ _, rfl, rfl, rfl, rfl, rfl, rfl, rfl,
        ?_, ?_, ?_⟩
      · intro k _; rfl
      · intro entry he
        rw [modelStatsOf, hms] at he
        simp at he
      · intro _
        simp [modelStatsOf, hms]
    | some mm =>
      cases hentry : mm m with
      | none =>
        refine ⟨_, _, rfl, storeStats_insert _ _ _ _, by simp [hentry], by simp [hentry],
          by simp [hentry], by simp [hentry], by simp [hentry], by simp [hentry],
          by simp [hentry], ?_, ?_, ?_⟩
        · intro k _
          simp [hentry, modelStatsOf, hms]
        · intro entry he
          simp [modelStatsOf, hms, hentry] at he
        · intro _
          simp [hentry, modelStatsOf, hms]
      | some entry =>
        refine ⟨_, _, rfl, storeStats_insert _ _ _ _, by simp [hentry], by simp [hentry],
          by simp [hentry], by simp [hentry], by simp [hentry], by simp [hentry],
          by simp [hentry], ?_, ?_, ?_⟩
        · intro k hk
          simp [hentry, modelStatsOf, StrMap.insert, hk, hms]
        · intro e2 he
          have he2 : entry = e2 := by simpa [modelStatsOf, hms, hentry] using he
          subst he2
          simp [hentry, modelStatsOf, StrMap.insert]
        · intro h0
          simp [modelStatsOf, hms, hentry] at h0

/-- Witness for `clearAuthProfileCooldown_frame` on the demo store: the
model-free clear keeps `disabledUntil` and the model stats; the `opus` clear
keeps the profile error count and rewrites only the `opus` entry. -/
theorem clearAuthProfileCooldown_frame_witness :
    demoStore.usageStats = some demoUsage ∧ demoUsage "p1" = some demoStats ∧
      (∃ store2 ns, clearAuthProfileCooldown demoStore "p1" none = some store2 ∧
        storeStats store2 "p1" = some ns ∧ ns.errorCount = some 0 ∧
        ns.disabledUntil = demoStats.disabledUntil ∧
        ns.modelStats = demoStats.modelStats) ∧
      ∃ store2 ns, clearAuthProfileCooldown demoStore "p1" (some "opus") = some store2 ∧
        storeStats store2 "p1" = some ns ∧ ns.errorCount = demoStats.errorCount ∧
        ∀ entry, modelStatsOf demoStats "opus" = some entry →
          modelStatsOf ns "opus" =
            some { entry with errorCount := some 0, cooldownUntil := none } := by
  refine ⟨rfl, rfl, ?_, ?_⟩
  · obtain ⟨s2, ns, h1, h2, h3, h4, h5, h6, h7, h8, h9, h10⟩ :=
      (clearAuthProfileCooldown_frame demoStore demoUsage demoStats "p1" rfl rfl).1
    exact ⟨s2, ns, h1, h2, h3, h5, h8⟩
  · obtain ⟨s2, ns, h1, h2, h3, h4, h5, h6, h7, h8, h9, h10, h11, h12⟩ :=
      (clearAuthProfileCooldown_frame demoStore demoUsage demoStats "p1" rfl rfl).2
        "opus" (by decide)
    exact ⟨s2, ns, h1, h2, h3, h11⟩
